import Mathlib

/-!
Verification of the `json` component of the zduka/helpers repository
(`src/helpers/json.h`) against its natural-language specification.

The C++ header defines a JSON-like document model (tagged union `Value`
over Undefined/Null/Bool/Int/Double/String/Array/Struct), a tokenizer
and a recursive-descent parser (`Value::Parser`), and stream-output
rendering (`operator<<`).  The definitions below are a shallow embedding
of that code:

* machine `int` payloads are modelled as unbounded `Int` (no claim in
  scope exercises overflow);
* C++ `double` payloads are modelled as `Rat`; no verified statement
  evaluates a `double` payload or its stream formatting;
* heap pointers (`Value*`) are modelled, where their identity matters,
  as explicit addresses of type `Nat` paired with the pointee;
* the input `std::istream` is modelled as a list of remaining characters
  plus the stream's eof bit and the parser's 1-based line/column
  counters; a `get()`/`peek()` past the end yields `none` (the C++
  `EOF` value `(char)-1`, which on a signed `char` platform fails every
  range test of the tokenizer) and sets the eof bit;
* loops are given explicit fuel; the outcome `diverge` (fuel exhausted
  on a loop that provably never exits) models C++ non-termination, and
  `thrown` models a C++ `throw`.
-/

namespace json

/-- The document tree of `json::Value` (json.h 278-581): a closed tagged
union of the eight node kinds, each variant carrying its comment string
(json.h 20-272).  `Array` elements and `Struct` members are held in
order of insertion. -/
inductive Value where
  | undefined (comment : String)
  | null (comment : String)
  | bool (value : Bool) (comment : String)
  | int (value : Int) (comment : String)
  | double (value : Rat) (comment : String)
  | string (value : String) (comment : String)
  | array (elements : List Value) (comment : String)
  | struct (elements : List (String × Value)) (comment : String)

/-- `Value::setComment` (json.h 400-419): replaces the comment of the
active variant, leaving the payload untouched. -/
def setComment : Value → String → Value
  | .undefined _, cm => .undefined cm
  | .null _, cm => .null cm
  | .bool b _, cm => .bool b cm
  | .int i _, cm => .int i cm
  | .double d _, cm => .double d cm
  | .string s _, cm => .string s cm
  | .array es _, cm => .array es cm
  | .struct es _, cm => .struct es cm

/-- The process-wide sentinel `json::undefined = Value{Undefined{}}`
(json.h 585): an Undefined value with the default (empty) comment. -/
def undefinedValue : Value := .undefined ""

/-- `Value::operator==` (json.h 487-507) restricted to the scalar kinds:
different discriminants compare `false`; `Undefined`/`Null` compare
`true`; `Bool`/`Int`/`Double`/`String` compare their payloads, ignoring
comments.  For two `Array`s (resp. two `Struct`s) the source delegates
to `Array::operator==` / `Struct::operator==`, which compare the raw
`Value*` element pointers; since this address-free tree does not carry
the pointers, those two cases yield `none` here and are modelled
faithfully on address-carrying cells by `arrayEqCpp` / `structEqCpp`
below. -/
def cppValueEqScalar : Value → Value → Option Bool
  | .undefined _, .undefined _ => some true
  | .null _, .null _ => some true
  | .bool a _, .bool b _ => some (a == b)
  | .int a _, .int b _ => some (a == b)
  | .double a _, .double b _ => some (a == b)
  | .string a _, .string b _ => some (a == b)
  | .array _ _, .array _ _ => none
  | .struct _ _, .struct _ _ => none
  | _, _ => some false

/-! ## Scalar `==` / `!=` operators (claim C10)

Each scalar variant defines `operator==` and `operator!=` on its payload.
The source of the four `!=` operators is, verbatim, a comparison with
`==`:

  json.h 66-67:   `Bool`:   `==` is `value_ == other.value_`, `!=` is `value_ == other.value_`
  json.h 93-94:   `Int`:    likewise
  json.h 120-121: `Double`: likewise
  json.h 149-150: `String`: likewise
-/

/-- `Bool::operator==` (json.h 66): `value_ == other.value_`. -/
def boolEqCpp (a b : Bool) : Bool := a == b

/-- `Bool::operator!=` (json.h 67): the body is `value_ == other.value_`
(it compares with `==`, not `!=`). -/
def boolNeCpp (a b : Bool) : Bool := a == b

/-- `Int::operator==` (json.h 93). -/
def intEqCpp (a b : Int) : Bool := a == b

/-- `Int::operator!=` (json.h 94): body is `value_ == other.value_`. -/
def intNeCpp (a b : Int) : Bool := a == b

/-- `Double::operator==` (json.h 120). -/
def doubleEqCpp (a b : Rat) : Bool := a == b

/-- `Double::operator!=` (json.h 121): body is `value_ == other.value_`. -/
def doubleNeCpp (a b : Rat) : Bool := a == b

/-- `String::operator==` (json.h 149). -/
def stringEqCpp (a b : String) : Bool := a == b

/-- `String::operator!=` (json.h 150): body is `value_ == other.value_`. -/
def stringNeCpp (a b : String) : Bool := a == b

/-! ## Array / Struct element storage and equality (claims C3, C5)

`Array::elements_` is a `std::vector<Value*>` and `Struct::elements_` a
`std::vector<std::pair<std::string, Value*>>` (json.h 212, 269).  Where
pointer identity matters we model an element as a cell `(address,
pointee)`; `new` allocations of simultaneously live objects always have
distinct addresses. -/

/-- Cells of `Array::elements_`: the pointer value (address) together
with the `Value` it points to. -/
abbrev ArrayCells := List (Nat × Value)

/-- Cells of `Struct::elements_`: member name, pointer address, pointee. -/
abbrev StructCells := List (String × Nat × Value)

/-- `Array::operator==` (json.h 180-187): sizes must agree, then for each
position `elements_[i] != other.elements_[i]` is tested — a built-in
comparison of the two raw `Value*` pointers.  The pointees play no role,
exactly as in the source. -/
def arrayEqCpp (a b : ArrayCells) : Bool :=
  if a.length = b.length then
    (List.zip a b).all (fun p => p.1.1 == p.2.1)
  else false

/-- `Array::operator!=` (json.h 189-196): `true` when sizes differ or
some position holds different element pointers. -/
def arrayNeCpp (a b : ArrayCells) : Bool :=
  if a.length = b.length then
    (List.zip a b).any (fun p => p.1.1 != p.2.1)
  else true

/-- `Struct::operator==` (json.h 237-244): sizes must agree, then each
position compares the `std::pair<std::string, Value*>` entries — name
equality and raw pointer equality. -/
def structEqCpp (a b : StructCells) : Bool :=
  if a.length = b.length then
    (List.zip a b).all (fun p => p.1.1 == p.2.1 && p.1.2.1 == p.2.2.1)
  else false

/-- `Struct::operator!=` (json.h 246-253). -/
def structNeCpp (a b : StructCells) : Bool :=
  if a.length = b.length then
    (List.zip a b).any (fun p => p.1.1 != p.2.1 || p.1.2.1 != p.2.2.1)
  else true

mutual

/-- Modelled from the spec (§3, §8): structural, order- and
length-sensitive element-wise equality of values, ignoring comments —
the equality the specification asserts for containers ("Equality is
element-wise, order-sensitive, length-sensitive"). -/
def valueEqSpec : Value → Value → Bool
  | .undefined _, .undefined _ => true
  | .null _, .null _ => true
  | .bool a _, .bool b _ => a == b
  | .int a _, .int b _ => a == b
  | .double a _, .double b _ => a == b
  | .string a _, .string b _ => a == b
  | .array xs _, .array ys _ => listEqSpec xs ys
  | .struct xs _, .struct ys _ => membersEqSpec xs ys
  | _, _ => false

/-- Element-wise spec equality of element lists. -/
def listEqSpec : List Value → List Value → Bool
  | [], [] => true
  | x :: xs, y :: ys => valueEqSpec x y && listEqSpec xs ys
  | _, _ => false

/-- Element-wise spec equality of member lists (names and values). -/
def membersEqSpec : List (String × Value) → List (String × Value) → Bool
  | [], [] => true
  | (k, v) :: xs, (k2, v2) :: ys => k == k2 && valueEqSpec v v2 && membersEqSpec xs ys
  | _, _ => false

end

/-- `Array::operator[]` (json.h 174-175): `return *elements_[i];` with no
bounds check of any kind.  `std::vector` indexing outside `[0, size)` is
undefined behavior; `none` models that UB outcome.  No `IndexOutOfRange`
error exists anywhere in the source. -/
def arrayOpIndex (elements : List Value) (i : Nat) : Option Value :=
  elements.get? i

/-- Error kinds named by the specification (§7). -/
inductive JsonError where
  | indexOutOfRange
  | unterminatedLiteral
  | unexpectedCharacter
  | unexpectedToken

/-- Modelled from the spec (§4.2, §7): indexed Array access is
bounds-checked, returning the element inside `[0, size)` and failing
with `IndexOutOfRange` outside it. -/
def arrayIndexSpec (elements : List Value) (i : Nat) : Except JsonError Value :=
  match elements.get? i with
  | some v => .ok v
  | none => .error .indexOutOfRange

/-! ## Struct named access (claim C6) -/

/-- The ordered member sequence of a `Struct`.  The side table
`elementsByName_ : name → position` is kept consistent with the sequence
(every name maps to the index of its unique entry), so a map lookup is
a positional search of the sequence. -/
abbrev StructModel := List (String × Value)

/-- `Struct::operator[](std::string const &) const` (json.h 634-640):
look the name up in `elementsByName_`; absent names return the shared
`json::undefined` sentinel, present names return the element at the
recorded position.  The body performs no mutation. -/
def structOpIndexConst (s : StructModel) (name : String) : Value :=
  match s.find? (fun p => p.1 == name) with
  | none => undefinedValue
  | some p => p.2

/-- `Struct::operator[](std::string const &)` (json.h 642-649): if the
name is absent, record it in `elementsByName_` at position
`elementsByName_.size()` (the old size) and `push_back` a fresh
`Value{Undefined{}}` entry; return the element at the recorded position.
The result pairs the updated sequence with the returned value. -/
def structOpIndexMut (s : StructModel) (name : String) : StructModel × Value :=
  match s.find? (fun p => p.1 == name) with
  | some p => (s, p.2)
  | none => (s ++ [(name, Value.undefined "")], Value.undefined "")

/-! ## The public `parse(std::istream&)` wrapper (claim C2) -/

/-- `json::parse(std::istream&)` (json.h 657-659).  Its entire body is
`return parse(s);`, which resolves to the very same function: an
unconditional self-call with unchanged argument.  Modelled with explicit
fuel; `none` is the fuel-exhausted outcome, reached at every fuel. -/
def parseIstream : Nat → String → Option Value
  | 0, _ => none
  | fuel + 1, s => parseIstream fuel s

/-! ## Tokenizer state (json.h 979-1013)

The parser reads an `std::istream` one character at a time and keeps
1-based line/column counters `l_`, `c_`.  `s_.get()` past the end
returns `EOF` (`(char)-1`) and sets the stream's eof bit; `s_.peek()`
at the end also sets it.  The EOF character is modelled as `none`, and
on a signed-`char` platform it is below every range the tokenizer
tests, so the lifted character predicates are `false` on `none`. -/

structure PState where
  input : List Char
  eofbit : Bool
  line : Nat
  col : Nat

/-- Fresh parser state over the characters of a string: `l_ = 1`,
`c_ = 1` (json.h 1010-1011), eof bit clear. -/
def initState (s : String) : PState := ⟨s.toList, false, 1, 1⟩

/-- `Parser::nextChar` (json.h 979-988): `s_.get()`, then the line is
incremented (and the column reset to 1) when the character read is
`'\r'`, otherwise the column is incremented.  Note the source tests
`'\r'`, not `'\n'`, and at EOF the returned `(char)-1` is not `'\r'`,
so the column still increments. -/
def nextChar (st : PState) : Option Char × PState :=
  match st.input with
  | [] => (none, { st with eofbit := true, col := st.col + 1 })
  | ch :: rest =>
      if ch = '\r' then (some ch, { st with input := rest, line := st.line + 1, col := 1 })
      else (some ch, { st with input := rest, col := st.col + 1 })

/-- `Parser::peekChar` (json.h 990-992): `s_.peek()` — no extraction, no
line/column update, but peeking at the end sets the eof bit. -/
def peekChar (st : PState) : Option Char × PState :=
  match st.input with
  | [] => (none, { st with eofbit := true })
  | ch :: _ => (some ch, st)

/-- `Parser::isDigit` (json.h 1005): `c > '0' && c <= '9'` — a strict
lower bound, so `'0'` itself is not a digit. -/
def isDigit (c : Char) : Bool := decide ('0' < c) && decide (c ≤ '9')

/-- `Parser::isIdentifierStart` (json.h 1006). -/
def isIdentifierStart (c : Char) : Bool :=
  (decide ('a' ≤ c) && decide (c ≤ 'z')) || (decide ('A' ≤ c) && decide (c ≤ 'Z')) || c == '_'

/-- `Parser::isIdentifier` (json.h 1007). -/
def isIdentifierChar (c : Char) : Bool := isIdentifierStart c || isDigit c

/-- `isDigit` applied to a read character; the EOF value `(char)-1` is
below `'0'`, hence `false`. -/
def isDigitO : Option Char → Bool
  | some c => isDigit c
  | none => false

/-- `isIdentifierStart` applied to a read character; `false` at EOF. -/
def isIdentifierStartO : Option Char → Bool
  | some c => isIdentifierStart c
  | none => false

/-- `isIdentifier` applied to a read character; `false` at EOF. -/
def isIdentifierCharO : Option Char → Bool
  | some c => isIdentifierChar c
  | none => false

/-- `result += c` on a character obtained from `get()`: appending the
EOF value stores the byte `0xFF` (`(char)-1`). -/
def pushO (r : String) : Option Char → String
  | some c => r.push c
  | none => r.push (Char.ofNat 255)

/-- `nextChar() - '0'` (json.h 970) as an integer; at EOF this would be
`-49`, though the tokenizer only reaches it after a digit peek. -/
def charVal : Option Char → Int
  | some c => (c.toNat : Int) - 48
  | none => -49

/-- `Parser::Token` (json.h 675-769): line, column, kind; the kind/union
payload pair is modelled as one inductive. -/
inductive TokenKind where
  | undefined
  | null
  | bool (b : Bool)
  | int (i : Int)
  | double (d : Rat)
  | str (s : String)
  | comment (s : String)
  | identifier (s : String)
  | colon
  | comma
  | squareOpen
  | squareClose
  | curlyOpen
  | curlyClose
deriving DecidableEq

structure Token where
  line : Nat
  col : Nat
  kind : TokenKind

/-- Outcome of a tokenizer step: a token and the successor state, a C++
`throw`, or fuel exhaustion (modelling non-termination). -/
inductive TokRes where
  | ok (t : Token) (st : PState)
  | thrown (msg : String)
  | diverge

/-- Outcome of a string-building lexer loop. -/
inductive StrRes where
  | ok (s : String) (st : PState)
  | diverge

/-- The single-line branch of `Parser::nextComment` (json.h 884-891):
`while (!eof())` read a character, stop at `'\n'` (which is consumed and
not appended), append everything else.  A comment at end of input
appends the EOF byte once, after which `eof()` is set and the loop
exits. -/
def lineCommentLoop : Nat → String → PState → StrRes
  | 0, _, _ => .diverge
  | fuel + 1, result, st =>
    if st.eofbit then .ok result st
    else
      let r := nextChar st
      if r.1 = some '\n' then .ok result r.2
      else lineCommentLoop fuel (pushO result r.1) r.2

/-- The block branch of `Parser::nextComment` (json.h 892-907):
`while (true)`, with an `eof()` check whose `error(l, c, "Unterminated
multi-line comment")` is an empty TODO (json.h 1001-1003) — it returns
and the loop continues reading the EOF byte forever.  A `'*'` is
terminating only when the very next character is `'/'`; otherwise both
characters are appended. -/
def blockCommentLoop : Nat → Nat → Nat → String → PState → StrRes
  | 0, _, _, _, _ => .diverge
  | fuel + 1, l, c, result, st =>
    let r := nextChar st
    if r.1 = some '*' then
      let r2 := nextChar r.2
      if r2.1 = some '/' then .ok result r2.2
      else blockCommentLoop fuel l c (pushO (pushO result r.1) r2.1) r2.2
    else blockCommentLoop fuel l c (pushO result r.1) r.2

/-- `Parser::nextComment` (json.h 881-912): dispatch on the character
after the opening `'/'`; `'/'` starts a line comment, `'*'` a block
comment, and anything else hits the no-op `error("// or /* comment")`
and returns the empty result. -/
def nextComment (fuel : Nat) (l c : Nat) (st : PState) : StrRes :=
  let r := nextChar st
  if r.1 = some '/' then lineCommentLoop fuel "" r.2
  else if r.1 = some '*' then blockCommentLoop fuel l c "" r.2
  else .ok "" r.2

/-- `Parser::nextString` (json.h 914-947).  The loop body: the `eof()`
check calls `error(l, c, "unterminated string literal")`, which is an
empty TODO and returns; then a character is read; a backslash consumes
one more character and appends its translation (`\"`, `\'`, `\\`
literally, `\t`/`\n`/`\r` as control characters, an escaped newline as
nothing, anything else hits the no-op `error`); every other character is
appended.  No branch compares against the delimiter and no branch exits
the loop: the function can never return. -/
def nextStringLoop : Nat → Nat → Nat → Char → String → PState → StrRes
  | 0, _, _, _, _, _ => .diverge
  | fuel + 1, l, c, delim, result, st =>
    let r := nextChar st
    if r.1 = some '\\' then
      let r2 := nextChar r.2
      if r2.1 = some '"' || r2.1 = some '\'' || r2.1 = some '\\' then
        nextStringLoop fuel l c delim (pushO result r2.1) r2.2
      else if r2.1 = some 't' then nextStringLoop fuel l c delim (result.push '\t') r2.2
      else if r2.1 = some 'n' then nextStringLoop fuel l c delim (result.push '\n') r2.2
      else if r2.1 = some 'r' then nextStringLoop fuel l c delim (result.push '\r') r2.2
      else if r2.1 = some '\n' then nextStringLoop fuel l c delim result r2.2
      else nextStringLoop fuel l c delim result r2.2
    else nextStringLoop fuel l c delim (pushO result r.1) r.2

/-- The scan loop of `Parser::nextIdentifier` (json.h 952-954):
`while (!eof() && isIdentifier(peekChar())) result += nextChar();`. -/
def identLoop : Nat → String → PState → StrRes
  | 0, _, _ => .diverge
  | fuel + 1, result, st =>
    if st.eofbit then .ok result st
    else
      let p := peekChar st
      if isIdentifierCharO p.1 then
        let r := nextChar p.2
        identLoop fuel (pushO result r.1) r.2
      else .ok result p.2

/-- `Parser::nextIdentifier` (json.h 951-965): scan the identifier, then
map the reserved words to their literal token kinds. -/
def nextIdentifier (fuel : Nat) (l c : Nat) (start : Char) (st : PState) : TokRes :=
  match identLoop fuel (String.singleton start) st with
  | .diverge => .diverge
  | .ok result st1 =>
    if result = "null" then .ok ⟨l, c, .null⟩ st1
    else if result = "undefined" then .ok ⟨l, c, .undefined⟩ st1
    else if result = "true" then .ok ⟨l, c, .bool true⟩ st1
    else if result = "false" then .ok ⟨l, c, .bool false⟩ st1
    else .ok ⟨l, c, .identifier result⟩ st1

/-- The digit loop of `Parser::nextNumber` (json.h 969-970):
`while (isDigit(peekChar())) result = result * 10 + (nextChar() - '0')`.
The C++ `int` accumulator is modelled unbounded; no claim in scope
exercises overflow. -/
def numLoop : Nat → Int → PState → Option (Int × PState)
  | 0, _, _ => none
  | fuel + 1, result, st =>
    let p := peekChar st
    if isDigitO p.1 then
      let r := nextChar p.2
      numLoop fuel (result * 10 + charVal r.1) r.2
    else some (result, p.2)

/-- `Parser::nextNumber` (json.h 967-977): accumulate the digit run; if
the following character is `'.'` it is consumed and the function does
`throw ""` — the fractional case is never completed and no `Double`
token is ever produced; otherwise an `Int` token is returned. -/
def nextNumber (fuel : Nat) (l c : Nat) (start : Char) (st : PState) : TokRes :=
  match numLoop fuel ((start.toNat : Int) - 48) st with
  | none => .diverge
  | some (result, st1) =>
    let p := peekChar st1
    if p.1 = some '.' then .thrown ""
    else .ok ⟨l, c, .int result⟩ p.2

/-- `Parser::next` (json.h 841-879): `while (true)` read one character;
punctuation yields its token immediately (positions are the post-read
`l_`, `c_`); `'/'` lexes a comment, a quote a string, whitespace loops,
a digit a number, an identifier start an identifier; any other character
hits `error("Valid JSON character")` — an empty TODO — and the loop
silently continues, so unrecognized characters (and the EOF byte) are
skipped without any error. -/
def nextTok : Nat → PState → TokRes
  | 0, _ => .diverge
  | fuel + 1, st =>
    let r := nextChar st
    match r.1 with
    | none => nextTok fuel r.2
    | some ch =>
      if ch = ':' then .ok ⟨r.2.line, r.2.col, .colon⟩ r.2
      else if ch = ',' then .ok ⟨r.2.line, r.2.col, .comma⟩ r.2
      else if ch = '[' then .ok ⟨r.2.line, r.2.col, .squareOpen⟩ r.2
      else if ch = ']' then .ok ⟨r.2.line, r.2.col, .squareClose⟩ r.2
      else if ch = '{' then .ok ⟨r.2.line, r.2.col, .curlyOpen⟩ r.2
      else if ch = '}' then .ok ⟨r.2.line, r.2.col, .curlyClose⟩ r.2
      else if ch = '/' then
        match nextComment fuel r.2.line r.2.col r.2 with
        | .diverge => .diverge
        | .ok s st2 => .ok ⟨r.2.line, r.2.col, .comment s⟩ st2
      else if ch = '"' || ch = '\'' then
        match nextStringLoop fuel r.2.line r.2.col ch "" r.2 with
        | .diverge => .diverge
        | .ok s st2 => .ok ⟨r.2.line, r.2.col, .str s⟩ st2
      else if ch = ' ' || ch = '\t' || ch = '\n' || ch = '\r' then nextTok fuel r.2
      else if isDigit ch then nextNumber fuel r.2.line r.2.col ch r.2
      else if isIdentifierStart ch then nextIdentifier fuel r.2.line r.2.col ch r.2
      else nextTok fuel r.2

/-! ## The recursive-descent parser `Value::Parser::parse` (json.h 775-831) -/

/-- Outcome of a parse step: a value and the successor state, a C++
`throw`, fuel exhaustion, or undefined behavior (`ub`): the `switch` of
`Parser::parse(Token const&)` has no case for `Identifier`, `Colon`,
`Comma`, `SquareClose` or `CurlyClose`, so on those tokens control falls
off the end of a value-returning function. -/
inductive PRes where
  | ok (v : Value) (st : PState)
  | thrown (msg : String)
  | diverge
  | ub

mutual

/-- `Parser::parse()` (json.h 775-777): `return parse(next());`. -/
def parseTop : Nat → PState → PRes
  | 0, _ => .diverge
  | fuel + 1, st =>
    match nextTok fuel st with
    | .diverge => .diverge
    | .thrown m => .thrown m
    | .ok t st1 => parseTok fuel t st1

/-- `Parser::parse(Token const&)` (json.h 781-825): dispatch on the
token kind.  A `Comment` token parses the following value and attaches
the comment (json.h 827-831, `parseWithComment`); scalar tokens build
the corresponding `Value` (default-constructed comment); `SquareOpen`
parses an array; `CurlyOpen` is a TODO in the source — it returns an
empty `Struct` without consuming a single further token; the remaining
kinds have no case (undefined behavior). -/
def parseTok : Nat → Token → PState → PRes
  | 0, _, _ => .diverge
  | fuel + 1, t, st =>
    match t.kind with
    | .comment s =>
      match parseTop fuel st with
      | .ok v st1 => .ok (setComment v s) st1
      | r => r
    | .undefined => .ok (Value.undefined "") st
    | .null => .ok (Value.null "") st
    | .bool b => .ok (Value.bool b "") st
    | .int i => .ok (Value.int i "") st
    | .double d => .ok (Value.double d "") st
    | .str s => .ok (Value.string s "") st
    | .squareOpen =>
      match nextTok fuel st with
      | .diverge => .diverge
      | .thrown m => .thrown m
      | .ok t1 st1 =>
        if t1.kind = TokenKind.squareClose then .ok (Value.array [] "") st1
        else
          match parseTok fuel t1 st1 with
          | .ok v st2 =>
            (match nextTok fuel st2 with
             | .diverge => .diverge
             | .thrown m => .thrown m
             | .ok t2 st3 => parseArrayLoop fuel [v] t2 st3)
          | r => r
    | .curlyOpen => .ok (Value.struct [] "") st
    | .identifier _ => .ub
    | .colon => .ub
    | .comma => .ub
    | .squareClose => .ub
    | .curlyClose => .ub

/-- The element loop of the `SquareOpen` case (json.h 802-812): while
the lookahead is a comma, read the next token; a closing bracket after
a comma (trailing comma) ends the array; otherwise parse another
element and read the next lookahead.  A lookahead that is neither comma
nor closing bracket is `throw "error"` (json.h 811). -/
def parseArrayLoop : Nat → List Value → Token → PState → PRes
  | 0, _, _, _ => .diverge
  | fuel + 1, acc, t, st =>
    if t.kind = TokenKind.comma then
      match nextTok fuel st with
      | .diverge => .diverge
      | .thrown m => .thrown m
      | .ok t1 st1 =>
        if t1.kind = TokenKind.squareClose then .ok (Value.array acc "") st1
        else
          match parseTok fuel t1 st1 with
          | .ok v st2 =>
            (match nextTok fuel st2 with
             | .diverge => .diverge
             | .thrown m => .thrown m
             | .ok t2 st3 => parseArrayLoop fuel (acc ++ [v]) t2 st3)
          | r => r
    else if t.kind = TokenKind.squareClose then .ok (Value.array acc "") st
    else .thrown "error"

end

/-- `Value::Parser` run on the characters of a string, with a fuel
budget ample for the small inputs evaluated here. -/
def parseString (s : String) : PRes := parseTop 64 (initState s)

/-- The parsed value alone (when the parser produced one). -/
def parseValue (s : String) : Option Value :=
  match parseString s with
  | .ok v _ => some v
  | _ => none

/-! ## Rendering: `operator<<` (json.h 519-547 and the per-variant
friends).  No branch of any `operator<<` reads a comment field. -/

mutual

/-- `operator<<(std::ostream&, Value const&)` (json.h 519-547) together
with the variant output operators: `undefined` (json.h 27-31), `Null`
(json.h 46-50), `true`/`false` (json.h 70-73), the decimal integer
(json.h 97-100), the `Rat` approximation of stream double formatting
(json.h 125-128; no verified statement evaluates this branch), the
quoted string (json.h 153-157), `[e1, e2, ...]` (json.h 200-210) and
`\x7b"k1" : v1, "k2" : v2\x7d` (json.h 257-267). -/
def render : Value → String
  | .undefined _ => "undefined"
  | .null _ => "Null"
  | .bool b _ => if b then "true" else "false"
  | .int i _ => toString i
  | .double d _ => toString d
  | .string s _ => "\"" ++ s ++ "\""
  | .array es _ => "[" ++ renderElems es ++ "]"
  | .struct es _ => "\x7b" ++ renderMembers es ++ "\x7d"

/-- Array elements joined by `", "`. -/
def renderElems : List Value → String
  | [] => ""
  | [v] => render v
  | v :: rest => render v ++ ", " ++ renderElems rest

/-- Struct members `"name" : value` joined by `", "`. -/
def renderMembers : List (String × Value) → String
  | [] => ""
  | [(k, v)] => "\"" ++ k ++ "\" : " ++ render v
  | (k, v) :: rest => "\"" ++ k ++ "\" : " ++ render v ++ ", " ++ renderMembers rest

end

/-! ## Theorems for the claims -/

/-- C1: the round-trip claim `parse(render(v)) == v` for comment-free
values fails on the code.  `render (Int (-1))` is `"-1"`, but the
tokenizer has no case for `'-'` and `error("Valid JSON character")` is
an empty TODO, so the sign is silently skipped and the parser returns
`Int 1`, which `Value::operator==` distinguishes from `Int (-1)`.
(Independently, the public wrapper `parse(std::istream&)` never returns
at all — see the C2 theorem.) -/
theorem roundtrip_fails_on_negative_int :
    render (Value.int (-1) "") = "-1" ∧
    parseValue "-1" = some (Value.int 1 "") ∧
    cppValueEqScalar (Value.int 1 "") (Value.int (-1) "") = some false :=
  ⟨rfl, rfl, rfl⟩

/-- C2: the public parse operation never terminates.  The body of
`json::parse(std::istream&)` is `return parse(s);`, an unconditional
self-call, so for every input and every fuel the call fails to return
a `Value` (and raises no parse error either). -/
theorem parse_istream_diverges :
    ∀ (fuel : Nat) (s : String), parseIstream fuel s = none := by
  intro fuel s
  induction fuel with
  | zero => rfl
  | succ fuel ih => exact ih

/-- C3: `Array::operator==` and `Struct::operator==` compare the raw
`Value*` element pointers, not the pointees.  Two singleton arrays whose
cells hold structurally equal values (`Int 1`) at distinct heap
addresses compare unequal (and `!=` holds), an array whose cell shares
an address with a cell holding a different value compares equal, and
the same pointer comparison makes equal-content structs with distinct
addresses unequal — refuting element-wise structural equality. -/
theorem array_eq_compares_pointers :
    arrayEqCpp [(0, Value.int 1 "")] [(1, Value.int 1 "")] = false ∧
    arrayNeCpp [(0, Value.int 1 "")] [(1, Value.int 1 "")] = true ∧
    valueEqSpec (Value.int 1 "") (Value.int 1 "") = true ∧
    arrayEqCpp [(0, Value.int 1 "")] [(0, Value.int 2 "")] = true ∧
    structEqCpp [("k", 0, Value.int 1 "")] [("k", 1, Value.int 1 "")] = false :=
  ⟨rfl, rfl, rfl, rfl, rfl⟩

/-- C4: struct parsing is unimplemented.  The `CurlyOpen` case of
`Parser::parse` is a TODO that returns an empty `Struct` without
consuming a single member token, so `\x7b"a" : 1\x7d` parses to the
empty struct rather than to a struct with the member `a`. -/
theorem struct_parse_unimplemented :
    parseValue "\x7b\"a\" : 1\x7d" = some (Value.struct [] "") ∧
    valueEqSpec (Value.struct [] "") (Value.struct [("a", Value.int 1 "")] "") = false :=
  ⟨rfl, rfl⟩

/-- C5: `Array::operator[]` performs no bounds check — the body is
`return *elements_[i];`, so an index outside `[0, size)` is undefined
behavior (modelled `none`), not an `IndexOutOfRange` failure; the
spec-modelled accessor returns `IndexOutOfRange` there.  In range the
unchecked access returns the element. -/
theorem array_index_unchecked :
    arrayOpIndex [] 0 = none ∧
    arrayIndexSpec [] 0 = Except.error JsonError.indexOutOfRange ∧
    arrayOpIndex [Value.int 7 ""] 0 = some (Value.int 7 "") :=
  ⟨rfl, rfl, rfl⟩

/-- C6: for a name absent from a Struct, the const accessor returns the
shared Undefined sentinel (and, being a read, leaves the member
sequence untouched — its model is a pure function of the sequence),
`Value::operator==` confirms the comparison with `json::undefined`, and
the mutable accessor appends exactly one Undefined-valued entry for the
name, growing the size by one. -/
theorem struct_unknown_key (s : StructModel) (name : String)
    (h : s.find? (fun p => p.1 == name) = none) :
    structOpIndexConst s name = undefinedValue ∧
    cppValueEqScalar (structOpIndexConst s name) undefinedValue = some true ∧
    (structOpIndexMut s name).1 = s ++ [(name, Value.undefined "")] ∧
    (structOpIndexMut s name).1.length = s.length + 1 := by
  unfold structOpIndexConst structOpIndexMut
  rw [h]
  exact ⟨rfl, rfl, rfl, by simp⟩

/-- Witness for C6 at the concrete struct `\x7b"foo" : "bar"\x7d` and the
absent key `"zaza"` (the scenario of the `json.Struct` test). -/
theorem struct_unknown_key_witness :
    List.find? (fun p => p.1 == "zaza") [("foo", Value.string "bar" "")] = none ∧
    (structOpIndexConst [("foo", Value.string "bar" "")] "zaza" = undefinedValue ∧
     cppValueEqScalar (structOpIndexConst [("foo", Value.string "bar" "")] "zaza")
       undefinedValue = some true ∧
     (structOpIndexMut [("foo", Value.string "bar" "")] "zaza").1 =
       [("foo", Value.string "bar" "")] ++ [("zaza", Value.undefined "")] ∧
     (structOpIndexMut [("foo", Value.string "bar" "")] "zaza").1.length =
       [("foo", Value.string "bar" "")].length + 1) :=
  ⟨rfl, struct_unknown_key [("foo", Value.string "bar" "")] "zaza" rfl⟩

/-- Helper for C7: once the input is exhausted, `Parser::next` loops
forever — `get()` keeps returning the EOF byte, which matches no token
class, and `error("Valid JSON character")` is an empty TODO, so the
`while (true)` loop never exits. -/
theorem nextTok_eof_diverge :
    ∀ (fuel : Nat) (l c : Nat) (e : Bool),
      nextTok fuel ⟨[], e, l, c⟩ = TokRes.diverge := by
  intro fuel
  induction fuel with
  | zero => intro l c e; rfl
  | succ fuel ih => intro l c e; exact ih l (c + 1) true

/-- C7: the numeric tokenizer does not cover the claimed behavior.
`isDigit` is `c > '0' && c <= '9'`, so `'0'` is not a digit (and `'1'`,
`'9'` are); consequently the input `"0"` never produces an integer
token — the zero is skipped as an unrecognized character and the
tokenizer then loops forever at end of input.  A fractional part does
not produce a floating-point token either: `"1.5"` reaches
`throw ""` in `nextNumber`. -/
theorem digit_zero_and_fraction_broken :
    isDigit '0' = false ∧ isDigit '1' = true ∧ isDigit '9' = true ∧
    nextTok 64 (initState "1.5") = TokRes.thrown "" ∧
    (∀ fuel : Nat, nextTok fuel (initState "0") = TokRes.diverge) := by
  refine ⟨rfl, rfl, rfl, rfl, ?_⟩
  intro fuel
  match fuel with
  | 0 => rfl
  | fuel + 1 => exact nextTok_eof_diverge fuel 1 2 false

/-- Helper for C8: `Parser::nextString` can never return.  No branch of
its `while (true)` body compares the character against the delimiter or
exits the loop, and the `eof()` check only calls the empty TODO
`error(l, c, "unterminated string literal")` — so every branch
recurses, at every fuel. -/
theorem nextStringLoop_never_returns :
    ∀ (fuel : Nat) (l c : Nat) (delim : Char) (result : String) (st : PState),
      nextStringLoop fuel l c delim result st = StrRes.diverge := by
  intro fuel
  induction fuel with
  | zero => intros; rfl
  | succ fuel ih =>
    intro l c delim result st
    simp only [nextStringLoop]
    repeat' split
    all_goals exact ih _ _ _ _ _

/-- C8: the claimed tokenizer errors are never raised.  Both `error`
overloads are empty TODOs, so (a) a string literal — terminated or not —
sends the tokenizer into an infinite loop with no `UnterminatedLiteral`
report, and (b) an unrecognized character such as `'@'` is silently
skipped with no `UnexpectedCharacter` report: tokenizing `"@5"` just
returns the integer token 5. -/
theorem tokenizer_errors_are_noops :
    (∀ (fuel : Nat) (l c : Nat) (delim : Char) (result : String) (st : PState),
        nextStringLoop fuel l c delim result st = StrRes.diverge) ∧
    nextTok 64 (initState "@5") =
      TokRes.ok ⟨1, 3, TokenKind.int 5⟩ ⟨[], true, 1, 3⟩ :=
  ⟨nextStringLoop_never_returns, rfl⟩

/-- C9: a leading block comment attaches to the value that follows.
`Value::Parser::parse` on `"/* note */ 5"` yields `Int 5` whose comment
is `" note "`; rendering that value yields `"5"`, and no rendering ever
depends on a comment (the claim is settled against `Value::Parser`
directly; the public `parse` wrapper's self-recursion is the C2
defect). -/
theorem comment_attaches_and_never_renders :
    parseValue "/* note */ 5" = some (Value.int 5 " note ") ∧
    render (Value.int 5 " note ") = "5" ∧
    (∀ (v : Value) (cm : String), render (setComment v cm) = render v) :=
  ⟨rfl, rfl, fun v _ => by cases v <;> rfl⟩

/-- C10: for every scalar variant, `operator!=` is not the negation of
`operator==` — its body compares with `==`, so the two operators agree
everywhere; in particular on equal payloads both `==` and `!=` return
`true`. -/
theorem scalar_neq_is_not_negation :
    (∀ a b : Bool, boolNeCpp a b = boolEqCpp a b) ∧
    (∀ a b : Int, intNeCpp a b = intEqCpp a b) ∧
    (∀ a b : Rat, doubleNeCpp a b = doubleEqCpp a b) ∧
    (∀ a b : String, stringNeCpp a b = stringEqCpp a b) ∧
    (boolNeCpp true true = true ∧ boolEqCpp true true = true) ∧
    (intNeCpp 1 1 = true ∧ intEqCpp 1 1 = true) ∧
    (doubleNeCpp 1 1 = true ∧ doubleEqCpp 1 1 = true) ∧
    (stringNeCpp "a" "a" = true ∧ stringEqCpp "a" "a" = true) :=
  ⟨fun _ _ => rfl, fun _ _ => rfl, fun _ _ => rfl, fun _ _ => rfl,
   ⟨rfl, rfl⟩, ⟨rfl, rfl⟩, ⟨by decide, by decide⟩, ⟨rfl, rfl⟩⟩

end json
